import Mathlib

/-!
Shallow embedding of `src/studentRegistration.py` (EduEnroll CLI).

The repository is a command-line student-records manager backed by a MySQL
table `students (student_id, name, age, gender, department, email, phone,
status)`.  The embedding below models the pure decision logic of the
program: field validation (`validate_student_data`), record creation and id
assignment (`register_student`), the search/disambiguation/update flow of
`edit_student`, the soft-delete flow of `delete_student`, the read paths
(`view_students`, `search_students`, `export_to_csv`) and the admin login
attempt counter (`admin_login`).

Modelling conventions:
* The persistent store is a `List Student`; SQL `UPDATE ... WHERE
  student_id = x` is a `List.map` that rewrites every row whose
  `student_id` equals `x`, and `INSERT` is an append.  Database-level
  failures (connection loss, primary-key violations, column type coercion)
  are not modelled.
* Python `int(s)` is modelled by `pyIntOfString` (whitespace stripping,
  optional sign, decimal digits with single grouping underscores between
  digits).  Only ASCII digits and ASCII whitespace are modelled; Python
  additionally accepts some non-ASCII digit and space characters.
* `str.strip`/`str.upper`/`str.lower` are modelled on ASCII
  (`pyStrip`/`pyUpper`/`pyLower`).
* `re.match(r"[^@]+@[^@]+\.[^@]+", s)` is modelled by `emailMatch`:
  `re.match` anchors at the start of the string only, so it succeeds as
  soon as some prefix of `s` matches the pattern.
* `re.match(r"^\+?\d{10,15}$", s)` is modelled by `phoneOk`: in Python `$`
  matches at the end of the string or just before one trailing newline.
* MySQL `name LIKE '%kw%'` under the default case-insensitive collation is
  modelled by `likeMatch` as case-insensitive substring containment; the
  user keyword is treated as literal text (occurrences of the LIKE
  metacharacters inside the keyword are not modelled).
-/

/-! ### Python string primitives -/

/-- Numeric value of a decimal digit character (`ord(c) - ord('0')`). -/
def dval (c : Char) : Nat := c.toNat - 48

/-- The decimal digit character for `d < 10` (`chr(ord('0') + d)`). -/
def dChar (d : Nat) : Char := Char.ofNat (48 + d)

/-- ASCII whitespace recognised by Python's `str.strip` / `int`. -/
def isPySpace (c : Char) : Bool :=
  c = ' ' || c = '\t' || c = '\n' || c = '\r' || c = '\x0b' || c = '\x0c'

/-- `str.strip()` on a character list: drop whitespace from both ends. -/
def pyStripList (l : List Char) : List Char :=
  ((l.dropWhile isPySpace).reverse.dropWhile isPySpace).reverse

/-- Python `s.strip()` (ASCII whitespace). -/
def pyStrip (s : String) : String := ⟨pyStripList s.toList⟩

/-- Python `s.upper()` (ASCII case mapping). -/
def pyUpper (s : String) : String := ⟨s.toList.map Char.toUpper⟩

/-- Python `s.lower()` (ASCII case mapping). -/
def pyLower (s : String) : String := ⟨s.toList.map Char.toLower⟩

/-- Python `a or b` on strings: the empty string is falsy. -/
def pyOr (a b : String) : String := if a = "" then b else a

/-! ### Python `int()` parsing -/

/-- Digit accumulator for `int()`: after at least one digit has been read,
consume further digits, allowing a single grouping underscore between two
digits (as Python does). -/
def natAcc (acc : Nat) : List Char → Option Nat
  | [] => some acc
  | c :: rest =>
    if c = '_' then
      match rest with
      | [] => none
      | c2 :: rest2 => if c2.isDigit then natAcc (acc * 10 + dval c2) rest2 else none
    else if c.isDigit then natAcc (acc * 10 + dval c) rest
    else none

/-- Parse a non-empty run of decimal digits (with grouping underscores). -/
def natPart : List Char → Option Nat
  | [] => none
  | c :: rest => if c.isDigit then natAcc (dval c) rest else none

/-- Sign handling of Python `int(s)` after whitespace stripping. -/
def pyIntList : List Char → Option Int
  | [] => none
  | c :: rest =>
    if c = '+' then (natPart rest).map (fun n => Int.ofNat n)
    else if c = '-' then (natPart rest).map (fun n => -(Int.ofNat n))
    else (natPart (c :: rest)).map (fun n => Int.ofNat n)

/-- Python `int(s)`: strip whitespace, optional single sign, decimal
digits.  Returns `none` where Python raises `ValueError`. -/
def pyIntOfString (s : String) : Option Int := pyIntList (pyStripList s.toList)

/-! ### Python `str()` on integers -/

/-- Little-endian decimal digits of `n`, with explicit fuel (the fuel is
always instantiated with `n` itself, which suffices). -/
def toRevDigits : Nat → Nat → List Char
  | _, 0 => []
  | 0, _ + 1 => []
  | fuel + 1, n + 1 => dChar ((n + 1) % 10) :: toRevDigits fuel ((n + 1) / 10)

/-- Python `str(n)` for a natural number. -/
def pyStrNat (n : Nat) : String :=
  if n = 0 then "0" else ⟨(toRevDigits n n).reverse⟩

/-- Python `str(i)` for an integer. -/
def pyStrInt (i : Int) : String :=
  if i < 0 then "-" ++ pyStrNat i.natAbs else pyStrNat i.natAbs

/-- Little-endian value of a digit list. -/
def leVal : List Char → Nat
  | [] => 0
  | c :: r => dval c + 10 * leVal r

/-! ### The email pattern `re.match(r"[^@]+@[^@]+\.[^@]+", email)`

`re.match` anchors at the start of the string only: the pattern must match
some prefix of the string.  The pattern forces the first `[^@]+` to end at
the first `'@'`; after it, the match succeeds iff some `'@'`-free non-empty
run is followed by a literal `'.'` and one more non-`'@'` character. -/

/-- After the literal `'.'` of the pattern: the final `[^@]+` needs one
more non-`'@'` character. -/
def emailDot : List Char → Bool
  | [] => false
  | c2 :: _ => !(c2 = '@')

/-- After at least one `[^@]+` character following the `'@'` has been
consumed: scan for a literal `'.'` immediately followed by a non-`'@'`
character, absorbing further non-`'@'` characters into the `[^@]+` run. -/
def emailSeek : List Char → Bool
  | [] => false
  | c :: rest =>
    if c = '@' then false
    else if c = '.' then emailDot rest
    else emailSeek rest

/-- Consume the first (mandatory) `[^@]+` character after the `'@'`. -/
def emailAfterAt : List Char → Bool
  | [] => false
  | c :: rest => if c = '@' then false else emailSeek rest

/-- Scan the local part for the first `'@'` (the first `[^@]+` can only
end there). -/
def emailAtScan : List Char → Bool
  | [] => false
  | c :: rest => if c = '@' then emailAfterAt rest else emailAtScan rest

/-- The full pattern on a character list: first char must be a `[^@]+`
character, then scan for the `'@'`. -/
def emailMatchList : List Char → Bool
  | [] => false
  | c :: rest => if c = '@' then false else emailAtScan rest

/-- `re.match(r"[^@]+@[^@]+\.[^@]+", e)` viewed as a Boolean test. -/
def emailMatch (e : String) : Bool := emailMatchList e.toList

/-! ### The phone pattern `re.match(r"^\+?\d{10,15}$", phone)`

In Python, `$` matches at the end of the string or just before one
trailing newline, so the pattern accepts an optional leading `'+'`,
10 to 15 digits, and an optional single trailing `'\n'`. -/

/-- Consume the optional leading `'+'` of the phone pattern. -/
def dropPlus : List Char → List Char
  | [] => []
  | c :: r => if c = '+' then r else c :: r

/-- The `\d{10,15}` core of the phone pattern: 10 to 15 digits covering
the whole list. -/
def phoneCore (l : List Char) : Bool :=
  decide (10 ≤ l.length) && decide (l.length ≤ 15) && l.all Char.isDigit

/-- `re.match(r"^\+?\d{10,15}$", p)` as a Boolean test (faithful to
Python's `$`, which also matches just before one trailing newline). -/
def phoneOk (p : String) : Bool :=
  let l1 := dropPlus p.toList
  phoneCore (if l1.getLast? = some '\n' then l1.dropLast else l1)

/-- The phone rule in the words of the specification: an optional leading
`'+'` followed by 10-15 digits, matched against the whole string. -/
def spec_phone_whole (p : String) : Bool :=
  phoneCore (dropPlus p.toList)

/-! ### `validate_student_data` -/

/-- `validate_student_data(name, age, gender, email, phone)` from the
source: name length, integer age in `[10, 100]`, gender in
`{M, F, OTHER}` after upper-casing, the email pattern, the phone pattern,
checked in this order with the first failure returned. -/
def validate_student_data (name age gender email phone : String) : Bool × String :=
  if name = "" ∨ name.length < 2 then (false, "Name must be at least 2 characters.")
  else
    match pyIntOfString age with
    | none => (false, "Age must be a valid number.")
    | some a =>
      if ¬ (10 ≤ a ∧ a ≤ 100) then (false, "Age must be between 10 and 100.")
      else if ¬ (pyUpper gender = "M" ∨ pyUpper gender = "F" ∨ pyUpper gender = "OTHER") then
        (false, "Gender must be M, F, or Other.")
      else if ¬ emailMatch email = true then (false, "Invalid email format.")
      else if ¬ phoneOk phone = true then (false, "Phone number must be 10-15 digits.")
      else (true, "")

/-! ### The student record and the store

One row of the `students` table.  `status` is the active flag
(`status = TRUE` marks an active record, soft delete sets it to `FALSE`).
-/

structure Student where
  student_id : String
  name : String
  age : Int
  gender : String
  department : String
  email : String
  phone : String
  status : Bool
deriving DecidableEq, Repr

instance : Inhabited Student :=
  ⟨{ student_id := "", name := "", age := 0, gender := "", department := "",
     email := "", phone := "", status := true }⟩

/-- The persisted `students` table as a list of rows. -/
abbrev Store := List Student

/-- `field LIKE '%kw%'` under MySQL's default case-insensitive collation:
case-insensitive substring containment.  The keyword is treated as literal
text (LIKE metacharacters inside it are not modelled). -/
def likeMatch (field kw : String) : Bool :=
  decide ((pyUpper kw).toList <:+: (pyUpper field).toList)

/-- The query shared by `edit_student` and `delete_student`:
`SELECT ... FROM students WHERE name LIKE '%kw%' AND status = TRUE`. -/
def find_active_by_name (s : Store) (kw : String) : List Student :=
  s.filter (fun r => likeMatch r.name kw && r.status)

/-- The candidate set in the words of the specification: active records
whose name OR department contains the keyword (this is the query of the
standalone `search_students`, not the one used by edit/delete). -/
def spec_candidates (s : Store) (kw : String) : List Student :=
  s.filter (fun r => (likeMatch r.name kw || likeMatch r.department kw) && r.status)

/-- `UPDATE students SET name=..., age=..., gender=..., department=...,
email=..., phone=... WHERE student_id = id`: rewrites the six editable
fields of every row with the given id, leaving `student_id` and `status`
in place. -/
def update_students (s : Store) (id : String) (name : String) (ageV : Int)
    (gender department email phone : String) : Store :=
  s.map (fun r =>
    if r.student_id = id then
      { r with name := name, age := ageV, gender := gender,
               department := department, email := email, phone := phone }
    else r)

/-- Lines 492-507 of `edit_student`: re-validate the field strings, then
issue the UPDATE with `int(age)`.  Returns the new store and whether a
write happened. -/
def update_checked (s : Store) (id : String)
    (name age gender department email phone : String) : Store × Bool :=
  match validate_student_data name age gender email phone with
  | (false, _) => (s, false)
  | (true, _) =>
    match pyIntOfString age with
    | none => (s, false)
    | some v => (update_students s id name v gender department email phone, true)

/-- `register_student`: strip the six inputs (upper-casing the gender),
validate, and on success insert a row with
`student_id = "S" + str(1000 + COUNT(*) + 1)` and `status = TRUE`.
Returns the new store and the assigned id, if any. -/
def register_student (s : Store) (nameI ageI genderI deptI emailI phoneI : String) :
    Store × Option String :=
  let name := pyStrip nameI
  let age := pyStrip ageI
  let gender := pyUpper (pyStrip genderI)
  let department := pyStrip deptI
  let email := pyStrip emailI
  let phone := pyStrip phoneI
  match validate_student_data name age gender email phone with
  | (false, _) => (s, none)
  | (true, _) =>
    match pyIntOfString age with
    | none => (s, none)
    | some v =>
      let count := s.length + 1
      let student_id := "S" ++ pyStrNat (1000 + count)
      (s ++ [{ student_id := student_id, name := name, age := v, gender := gender,
               department := department, email := email, phone := phone,
               status := true }], some student_id)

/-- `UPDATE students SET status = FALSE WHERE student_id = id`
(lines 569-572 of `delete_student`). -/
def soft_delete (s : Store) (id : String) : Store :=
  s.map (fun r => if r.student_id = id then { r with status := false } else r)

/-- Outcome of an edit/delete flow, as observed at the prompt. -/
inductive FlowOutcome where
  | notFound
  | nonNumericSelection
  | invalidSelection
  | cancelled
  | validationFailed
  | updated (student_id : String)
  | deleted (student_id : String)
deriving DecidableEq, Repr

/-- Disambiguation step shared by edit and delete: with more than one
match, `int(input(...))` is required; with exactly one match the choice is
fixed to 1 without reading the selection input. -/
def select_index (results : List Student) (selI : String) : Option Int :=
  if 1 < results.length then pyIntOfString selI else some 1

/-- Lines 477-507 of `edit_student`, after a student has been selected:
confirmation prompt, the six override inputs (blank keeps the current
value, the current age is offered as `str(age)`), re-validation, update. -/
def edit_selected (s : Store) (sel : Student) (confirmI nI aI gI dI eI pI : String) :
    Store × FlowOutcome :=
  if ¬ pyLower (pyStrip confirmI) = "y" then (s, .cancelled)
  else
    match update_checked s sel.student_id
        (pyOr (pyStrip nI) sel.name)
        (pyOr (pyStrip aI) (pyStrInt sel.age))
        (pyOr (pyUpper (pyStrip gI)) sel.gender)
        (pyOr (pyStrip dI) sel.department)
        (pyOr (pyStrip eI) sel.email)
        (pyOr (pyStrip pI) sel.phone) with
    | (s2, true) => (s2, .updated sel.student_id)
    | (_, false) => (s, .validationFailed)

/-- Lines 448-474 of `edit_student`: report "not found", or disambiguate
and hand the selected student to the confirmation/update stage. -/
def edit_after_search (s : Store) (results : List Student)
    (selI confirmI nI aI gI dI eI pI : String) : Store × FlowOutcome :=
  if results.isEmpty then (s, .notFound)
  else
    match select_index results selI with
    | none => (s, .nonNumericSelection)
    | some choice =>
      if ¬ (1 ≤ choice ∧ choice ≤ (results.length : Int)) then (s, .invalidSelection)
      else edit_selected s (results.getD (choice.toNat - 1) default) confirmI nI aI gI dI eI pI

/-- `edit_student`: search active rows by name, disambiguate, confirm,
re-validate, and update. -/
def edit_student (s : Store) (nameI selI confirmI nI aI gI dI eI pI : String) :
    Store × FlowOutcome :=
  edit_after_search s (find_active_by_name s (pyStrip nameI)) selI confirmI nI aI gI dI eI pI

/-- Lines 561-575 of `delete_student`, after a student has been selected:
confirmation prompt, then the soft delete. -/
def delete_selected (s : Store) (sel : Student) (confirmI : String) :
    Store × FlowOutcome :=
  if ¬ pyLower (pyStrip confirmI) = "y" then (s, .cancelled)
  else (soft_delete s sel.student_id, .deleted sel.student_id)

/-- Lines 533-559 of `delete_student`: report "not found", or
disambiguate and hand the selected student to the confirmation stage. -/
def delete_after_search (s : Store) (results : List Student)
    (selI confirmI : String) : Store × FlowOutcome :=
  if results.isEmpty then (s, .notFound)
  else
    match select_index results selI with
    | none => (s, .nonNumericSelection)
    | some choice =>
      if ¬ (1 ≤ choice ∧ choice ≤ (results.length : Int)) then (s, .invalidSelection)
      else delete_selected s (results.getD (choice.toNat - 1) default) confirmI

/-- `delete_student`: search active rows by name, disambiguate, confirm,
then soft-delete the selected row. -/
def delete_student (s : Store) (nameI selI confirmI : String) : Store × FlowOutcome :=
  delete_after_search s (find_active_by_name s (pyStrip nameI)) selI confirmI

/-- `view_students`: `SELECT student_id, name, department, email, phone
FROM students WHERE status = TRUE`. -/
def view_students (s : Store) : List (String × String × String × String × String) :=
  (s.filter (fun r => r.status)).map
    (fun r => (r.student_id, r.name, r.department, r.email, r.phone))

/-- `search_students`: active rows whose name or department contains the
keyword (case-insensitive). -/
def search_students (s : Store) (kwI : String) :
    List (String × String × String × String × String) :=
  (spec_candidates s (pyStrip kwI)).map
    (fun r => (r.student_id, r.name, r.department, r.email, r.phone))

/-- `export_to_csv`: the rows written to the CSV file — all active
records, with all seven columns. -/
def export_to_csv (s : Store) :
    List (String × String × Int × String × String × String × String) :=
  (s.filter (fun r => r.status)).map
    (fun r => (r.student_id, r.name, r.age, r.gender, r.department, r.email, r.phone))

/-! ### Sessions (for id uniqueness/monotonicity) -/

/-- One interactive action of a session that touches the store. -/
inductive SessionOp where
  | register (nameI ageI genderI deptI emailI phoneI : String)
  | edit (nameI selI confirmI nI aI gI dI eI pI : String)
  | delete (nameI selI confirmI : String)
  | view
  | search (kwI : String)
  | exportCsv
deriving Repr

/-- Apply one action; the second component is the id assigned by a
successful registration. -/
def applyOp (s : Store) : SessionOp → Store × Option String
  | .register n a g d e p => register_student s n a g d e p
  | .edit n sel c n2 a2 g2 d2 e2 p2 => ((edit_student s n sel c n2 a2 g2 d2 e2 p2).1, none)
  | .delete n sel c => ((delete_student s n sel c).1, none)
  | .view => (s, none)
  | .search _ => (s, none)
  | .exportCsv => (s, none)

/-- The ids assigned to records created during a session. -/
def session_ids (s : Store) : List SessionOp → List String
  | [] => []
  | o :: ops =>
    match applyOp s o with
    | (s2, some id) => id :: session_ids s2 ops
    | (s2, none) => session_ids s2 ops

/-- The numeric part `1000 + count + 1` of the ids assigned during a
session. -/
def session_nums (s : Store) : List SessionOp → List Nat
  | [] => []
  | o :: ops =>
    match applyOp s o with
    | (s2, some _) => (1000 + (s.length + 1)) :: session_nums s2 ops
    | (s2, none) => session_nums s2 ops

/-! ### `admin_login` and the admin branch of `main` -/

/-- The `while attempts < max_attempts` loop of `admin_login`, recursing
on the number of attempts still allowed (`rem = 3 - attempts`).
`tries k` tells whether the credentials entered at the k-th prompt match
an admin row.  Returns (success, prompts issued). -/
def login_go (tries : Nat → Bool) : Nat → Nat → Bool × Nat
  | attempts, 0 => (false, attempts)
  | attempts, rem + 1 =>
    if tries attempts then (true, attempts + 1)
    else if rem = 0 then (false, attempts + 1)
    else login_go tries (attempts + 1) rem

/-- `admin_login()`: up to `max_attempts = 3` prompts. -/
def admin_login (tries : Nat → Bool) : Bool × Nat := login_go tries 0 3

/-- Lines 725-729 of `main`: a failed `admin_login` leads to
`sys.exit(1)`; `none` means the session continues into the admin menu. -/
def admin_branch_exit (tries : Nat → Bool) : Option Nat :=
  if (admin_login tries).1 then none else some 1

/-- A sample row used for concrete witnesses and counterexamples. -/
def sampleStudent : Student :=
  { student_id := "S1001", name := "Bob", age := 20, gender := "M",
    department := "Math", email := "b@c.de", phone := "1234567890", status := true }


/-! ### Theorems -/

/-! ### Round-trip lemmas: `int(str(i)) = i` -/

theorem dChar_isDigit {d : Nat} (h : d < 10) : (dChar d).isDigit = true := by
  interval_cases d <;> decide

theorem dval_dChar {d : Nat} (h : d < 10) : dval (dChar d) = d := by
  interval_cases d <;> decide

theorem isDigit_ne_underscore {c : Char} (h : c.isDigit = true) : c ≠ '_' := by
  intro e; subst e; exact absurd h (by decide)

theorem isDigit_ne_plus {c : Char} (h : c.isDigit = true) : c ≠ '+' := by
  intro e; subst e; exact absurd h (by decide)

theorem isDigit_ne_minus {c : Char} (h : c.isDigit = true) : c ≠ '-' := by
  intro e; subst e; exact absurd h (by decide)

theorem isDigit_not_space {c : Char} (h : c.isDigit = true) : isPySpace c = false := by
  have h1 : c ≠ ' ' := by intro e; subst e; exact absurd h (by decide)
  have h2 : c ≠ '\t' := by intro e; subst e; exact absurd h (by decide)
  have h3 : c ≠ '\n' := by intro e; subst e; exact absurd h (by decide)
  have h4 : c ≠ '\r' := by intro e; subst e; exact absurd h (by decide)
  have h5 : c ≠ '\x0b' := by intro e; subst e; exact absurd h (by decide)
  have h6 : c ≠ '\x0c' := by intro e; subst e; exact absurd h (by decide)
  simp [isPySpace, h1, h2, h3, h4, h5, h6]

/-- Dropping leading whitespace is the identity on whitespace-free lists. -/
theorem dropWhile_space_eq_self {l : List Char} (h : ∀ c ∈ l, isPySpace c = false) :
    l.dropWhile isPySpace = l := by
  cases l with
  | nil => rfl
  | cons c r =>
    have hc := h c (List.mem_cons_self c r)
    simp [List.dropWhile_cons, hc]

theorem pyStripList_eq_self {l : List Char} (h : ∀ c ∈ l, isPySpace c = false) :
    pyStripList l = l := by
  unfold pyStripList
  rw [dropWhile_space_eq_self h]
  rw [dropWhile_space_eq_self (by intro c hc; exact h c (List.mem_reverse.mp hc))]
  exact l.reverse_reverse

/-- `natAcc` on digit-only input folds the digits onto the accumulator. -/
theorem natAcc_digits : ∀ (l : List Char) (acc : Nat),
    (∀ c ∈ l, c.isDigit = true) →
    natAcc acc l = some (l.foldl (fun a c => a * 10 + dval c) acc) := by
  intro l
  induction l with
  | nil => intro acc _; rfl
  | cons c r ih =>
    intro acc h
    have hc := h c (List.mem_cons_self c r)
    have hne := isDigit_ne_underscore hc
    rw [natAcc.eq_def]
    simp only [hne, hc, if_true, if_false, ite_false, ite_true]
    rw [List.foldl_cons]
    exact ih _ (fun x hx => h x (List.mem_cons_of_mem c hx))

theorem natPart_digits {l : List Char} (hne : l ≠ [])
    (hd : ∀ c ∈ l, c.isDigit = true) :
    natPart l = some (l.foldl (fun a c => a * 10 + dval c) 0) := by
  cases l with
  | nil => exact absurd rfl hne
  | cons c r =>
    have hc := hd c (List.mem_cons_self c r)
    simp only [natPart]
    rw [if_pos hc, List.foldl_cons]
    have : (0 : Nat) * 10 + dval c = dval c := by omega
    rw [this]
    exact natAcc_digits r (dval c) (fun x hx => hd x (List.mem_cons_of_mem c hx))


theorem foldl_reverse_leVal : ∀ l : List Char,
    l.reverse.foldl (fun a c => a * 10 + dval c) 0 = leVal l := by
  intro l
  induction l with
  | nil => rfl
  | cons c r ih =>
    rw [List.reverse_cons, List.foldl_append, ih]
    simp [leVal]
    omega

theorem toRevDigits_leVal : ∀ (f n : Nat), n ≤ f → leVal (toRevDigits f n) = n := by
  intro f
  induction f with
  | zero =>
    intro n hn
    interval_cases n
    rfl
  | succ f ih =>
    intro n hn
    cases n with
    | zero => rfl
    | succ m =>
      rw [toRevDigits]
      have hdiv : (m + 1) / 10 ≤ f := by
        have h1 : (m + 1) / 10 < m + 1 := Nat.div_lt_self (Nat.succ_pos m) (by norm_num)
        omega
      rw [leVal, ih _ hdiv, dval_dChar (Nat.mod_lt _ (by norm_num))]
      have := Nat.div_add_mod (m + 1) 10
      omega

theorem toRevDigits_all_digits : ∀ (f n : Nat), ∀ c ∈ toRevDigits f n, c.isDigit = true := by
  intro f
  induction f with
  | zero =>
    intro n c hc
    cases n <;> simp [toRevDigits] at hc
  | succ f ih =>
    intro n c hc
    cases n with
    | zero => simp [toRevDigits] at hc
    | succ m =>
      rw [toRevDigits] at hc
      rcases List.mem_cons.mp hc with h | h
      · subst h; exact dChar_isDigit (Nat.mod_lt _ (by norm_num))
      · exact ih _ c h

theorem toRevDigits_ne_nil (n : Nat) (h : 0 < n) : toRevDigits n n ≠ [] := by
  cases n with
  | zero => omega
  | succ m => rw [toRevDigits]; exact List.cons_ne_nil _ _

theorem pyStrNat_toList (n : Nat) :
    (pyStrNat n).toList = if n = 0 then ['0'] else (toRevDigits n n).reverse := by
  unfold pyStrNat
  split <;> rfl

theorem pyStrNat_all_digits (n : Nat) : ∀ c ∈ (pyStrNat n).toList, c.isDigit = true := by
  intro c hc
  rw [pyStrNat_toList] at hc
  split at hc
  · simp at hc
    subst hc; decide
  · exact toRevDigits_all_digits n n c (List.mem_reverse.mp hc)

theorem natPart_pyStrNat (n : Nat) : natPart (pyStrNat n).toList = some n := by
  by_cases h : n = 0
  · subst h; decide
  · rw [pyStrNat_toList, if_neg h]
    rw [natPart_digits (by simpa using toRevDigits_ne_nil n (Nat.pos_of_ne_zero h))
      (fun c hc => toRevDigits_all_digits n n c (List.mem_reverse.mp hc))]
    rw [foldl_reverse_leVal, toRevDigits_leVal n n (le_refl n)]

theorem pyStrNat_toList_ne_nil (n : Nat) : (pyStrNat n).toList ≠ [] := by
  rw [pyStrNat_toList]
  split
  · exact List.cons_ne_nil _ _
  · rename_i h
    simpa using toRevDigits_ne_nil n (Nat.pos_of_ne_zero h)

/-- `int(str(n)) = n` for natural numbers. -/
theorem pyIntOfString_pyStrNat (n : Nat) : pyIntOfString (pyStrNat n) = some (n : Int) := by
  have hd := pyStrNat_all_digits n
  have hstrip : pyStripList (pyStrNat n).toList = (pyStrNat n).toList :=
    pyStripList_eq_self (fun c hc => isDigit_not_space (hd c hc))
  unfold pyIntOfString
  rw [hstrip]
  obtain ⟨c, r, hl⟩ : ∃ c r, (pyStrNat n).toList = c :: r := by
    cases he : (pyStrNat n).toList with
    | nil => exact absurd he (pyStrNat_toList_ne_nil n)
    | cons c r => exact ⟨c, r, rfl⟩
  have hc : c.isDigit = true := hd c (by rw [hl]; exact List.mem_cons_self c r)
  rw [hl]
  simp only [pyIntList]
  rw [if_neg (isDigit_ne_plus hc), if_neg (isDigit_ne_minus hc), ← hl,
    natPart_pyStrNat n]
  rfl

theorem pyIntList_neg (l : List Char) :
    pyIntList ('-' :: l) = (natPart l).map (fun n => -(Int.ofNat n)) := by
  simp only [pyIntList]
  rw [if_neg (by decide : ¬ (('-' : Char) = '+')), if_pos trivial]

/-- `int(str(i)) = i` for integers. -/
theorem pyIntOfString_pyStrInt (i : Int) : pyIntOfString (pyStrInt i) = some i := by
  unfold pyStrInt
  by_cases h : i < 0
  · rw [if_pos h]
    have hd := pyStrNat_all_digits i.natAbs
    have hlist : ("-" ++ pyStrNat i.natAbs).toList = '-' :: (pyStrNat i.natAbs).toList := by
      show ("-" ++ pyStrNat i.natAbs).data = '-' :: (pyStrNat i.natAbs).data
      rw [String.data_append]; rfl
    have hnos : ∀ c ∈ '-' :: (pyStrNat i.natAbs).toList, isPySpace c = false := by
      intro c hc
      rcases List.mem_cons.mp hc with h1 | h1
      · subst h1; decide
      · exact isDigit_not_space (hd c h1)
    unfold pyIntOfString
    rw [hlist, pyStripList_eq_self hnos, pyIntList_neg, natPart_pyStrNat i.natAbs]
    simp only [Option.map_some']
    congr 1
    show -(i.natAbs : Int) = i
    omega
  · rw [if_neg h, pyIntOfString_pyStrNat]
    congr 1
    omega

theorem emailSeek_append {l : List Char} (t : List Char) (h : emailSeek l = true) :
    emailSeek (l ++ t) = true := by
  induction l with
  | nil => simp [emailSeek] at h
  | cons c rest ih =>
    rw [emailSeek] at h
    rw [List.cons_append, emailSeek]
    by_cases h1 : c = '@'
    · rw [if_pos h1] at h; exact absurd h (by simp)
    · rw [if_neg h1] at h ⊢
      by_cases h2 : c = '.'
      · rw [if_pos h2] at h ⊢
        cases rest with
        | nil => simp [emailDot] at h
        | cons c2 r2 => simpa [emailDot] using h
      · rw [if_neg h2] at h ⊢
        exact ih h

theorem emailAfterAt_append {l : List Char} (t : List Char) (h : emailAfterAt l = true) :
    emailAfterAt (l ++ t) = true := by
  cases l with
  | nil => simp [emailAfterAt] at h
  | cons c rest =>
    rw [emailAfterAt] at h
    rw [List.cons_append, emailAfterAt]
    by_cases h1 : c = '@'
    · rw [if_pos h1] at h; exact absurd h (by simp)
    · rw [if_neg h1] at h ⊢
      exact emailSeek_append t h

theorem emailAtScan_append {l : List Char} (t : List Char) (h : emailAtScan l = true) :
    emailAtScan (l ++ t) = true := by
  induction l with
  | nil => simp [emailAtScan] at h
  | cons c rest ih =>
    rw [emailAtScan] at h
    rw [List.cons_append, emailAtScan]
    by_cases h1 : c = '@'
    · rw [if_pos h1] at h ⊢
      exact emailAfterAt_append t h
    · rw [if_neg h1] at h ⊢
      exact ih h

theorem emailMatchList_append {l : List Char} (t : List Char) (h : emailMatchList l = true) :
    emailMatchList (l ++ t) = true := by
  cases l with
  | nil => simp [emailMatchList] at h
  | cons c rest =>
    rw [emailMatchList] at h
    rw [List.cons_append, emailMatchList]
    by_cases h1 : c = '@'
    · rw [if_pos h1] at h; exact absurd h (by simp)
    · rw [if_neg h1] at h ⊢
      exact emailAtScan_append t h

/-- Appending text to an accepted email keeps it accepted (`re.match`
never looks past the matched prefix). -/
theorem emailMatch_append {e : String} (t : String) (h : emailMatch e = true) :
    emailMatch (e ++ t) = true := by
  unfold emailMatch at h ⊢
  have : (e ++ t).toList = e.toList ++ t.toList := String.data_append e t
  rw [this]
  exact emailMatchList_append t.toList h


/-- Characterisation of a successful validation. -/
theorem validate_true_iff (n a g e p : String) :
    validate_student_data n a g e p = (true, "") ↔
      ¬ (n = "" ∨ n.length < 2) ∧
      (∃ v, pyIntOfString a = some v ∧ 10 ≤ v ∧ v ≤ 100) ∧
      (pyUpper g = "M" ∨ pyUpper g = "F" ∨ pyUpper g = "OTHER") ∧
      emailMatch e = true ∧ phoneOk p = true := by
  unfold validate_student_data
  cases hia : pyIntOfString a with
  | none =>
    simp only [hia]
    split_ifs <;> simp
  | some v =>
    simp only [hia]
    split_ifs with h1 h2 h3 h4 h5 <;> simp_all

/-! ### Helper lemmas -/

theorem mem_of_getLast?_eq {α : Type} {l : List α} {a : α} (h : l.getLast? = some a) :
    a ∈ l := by
  have hm : a ∈ l.getLast? := by simp [h, Option.mem_def]
  obtain ⟨hne, he⟩ := List.mem_getLast?_eq_getLast hm
  rw [he]
  exact List.getLast_mem hne

theorem getD_mem {α : Type} [Inhabited α] {l : List α} {n : Nat} (h : n < l.length) :
    l.getD n default ∈ l := by
  rw [List.getD_eq_getElem?_getD, List.getElem?_eq_getElem h]
  simp only [Option.getD_some]
  exact List.getElem_mem h

/-- `pyStrip ""` is the empty string. -/
theorem pyStrip_empty : pyStrip "" = "" := rfl

/-- `pyUpper ""` is the empty string. -/
theorem pyUpper_empty : pyUpper "" = "" := rfl

/-- Python `"" or b` is `b`. -/
theorem pyOr_empty (b : String) : pyOr "" b = b := rfl

/-- A successful validation forces the age string to parse. -/
theorem validate_true_parse {n a g e p : String}
    (h : validate_student_data n a g e p = (true, "")) :
    ∃ v, pyIntOfString a = some v ∧ 10 ≤ v ∧ v ≤ 100 := by
  exact ((validate_true_iff n a g e p).mp h).2.1

/-- `validate_student_data` always returns one of seven fixed results. -/
theorem validate_outcomes (n a g e p : String) :
    validate_student_data n a g e p = (true, "") ∨
    validate_student_data n a g e p = (false, "Name must be at least 2 characters.") ∨
    validate_student_data n a g e p = (false, "Age must be a valid number.") ∨
    validate_student_data n a g e p = (false, "Age must be between 10 and 100.") ∨
    validate_student_data n a g e p = (false, "Gender must be M, F, or Other.") ∨
    validate_student_data n a g e p = (false, "Invalid email format.") ∨
    validate_student_data n a g e p = (false, "Phone number must be 10-15 digits.") := by
  unfold validate_student_data
  cases pyIntOfString a with
  | none => split_ifs <;> simp
  | some v =>
    by_cases hr : 10 ≤ v ∧ v ≤ 100
    · split_ifs <;> simp_all
    · split_ifs <;> simp_all

/-- The first component of `validate_student_data` determines the pair:
success is exactly `(true, "")`. -/
theorem validate_fst_true {n a g e p : String}
    (h : (validate_student_data n a g e p).1 = true) :
    validate_student_data n a g e p = (true, "") := by
  rcases validate_outcomes n a g e p with ho | ho | ho | ho | ho | ho | ho
  · exact ho
  all_goals (rw [ho] at h; simp at h)

theorem update_checked_of_invalid {s : Store} {id n a g d e p : String}
    (h : (validate_student_data n a g e p).1 = false) :
    update_checked s id n a g d e p = (s, false) := by
  unfold update_checked
  rcases hv : validate_student_data n a g e p with ⟨b, msg⟩
  rw [hv] at h
  cases b
  · rfl
  · simp at h

theorem update_checked_of_valid {s : Store} {id n a g d e p : String}
    (h : validate_student_data n a g e p = (true, "")) :
    ∃ v, pyIntOfString a = some v ∧ 10 ≤ v ∧ v ≤ 100 ∧
      update_checked s id n a g d e p = (update_students s id n v g d e p, true) := by
  obtain ⟨v, hv, h10, h100⟩ := validate_true_parse h
  refine ⟨v, hv, h10, h100, ?_⟩
  unfold update_checked
  rw [h, hv]

theorem update_students_length (s : Store) (id n : String) (v : Int)
    (g d e p : String) : (update_students s id n v g d e p).length = s.length := by
  simp [update_students]

theorem update_checked_fst_length (s : Store) (id n a g d e p : String) :
    (update_checked s id n a g d e p).1.length = s.length := by
  unfold update_checked
  rcases hv : validate_student_data n a g e p with ⟨b, msg⟩
  cases b
  · rfl
  · cases hia : pyIntOfString a
    · rfl
    · simp [update_students]

theorem soft_delete_length (s : Store) (id : String) :
    (soft_delete s id).length = s.length := by
  simp [soft_delete]

theorem edit_selected_fst_length (s : Store) (sel : Student) (c n a g d e p : String) :
    (edit_selected s sel c n a g d e p).1.length = s.length := by
  unfold edit_selected
  split
  · rfl
  · split
    · rename_i s2 hupd
      have h2 : (update_checked s sel.student_id (pyOr (pyStrip n) sel.name)
          (pyOr (pyStrip a) (pyStrInt sel.age)) (pyOr (pyUpper (pyStrip g)) sel.gender)
          (pyOr (pyStrip d) sel.department) (pyOr (pyStrip e) sel.email)
          (pyOr (pyStrip p) sel.phone)).1 = s2 := by rw [hupd]
      rw [← h2]
      exact update_checked_fst_length _ _ _ _ _ _ _ _
    · rfl

theorem edit_after_search_fst_length (s : Store) (results : List Student)
    (selI confirmI nI aI gI dI eI pI : String) :
    (edit_after_search s results selI confirmI nI aI gI dI eI pI).1.length = s.length := by
  unfold edit_after_search
  split
  · rfl
  · split
    · rfl
    · split
      · rfl
      · exact edit_selected_fst_length _ _ _ _ _ _ _ _ _

theorem edit_student_fst_length (s : Store) (nameI selI confirmI nI aI gI dI eI pI : String) :
    (edit_student s nameI selI confirmI nI aI gI dI eI pI).1.length = s.length :=
  edit_after_search_fst_length _ _ _ _ _ _ _ _ _ _

theorem delete_selected_fst_length (s : Store) (sel : Student) (c : String) :
    (delete_selected s sel c).1.length = s.length := by
  unfold delete_selected
  split
  · rfl
  · exact soft_delete_length _ _

theorem delete_after_search_fst_length (s : Store) (results : List Student)
    (selI confirmI : String) :
    (delete_after_search s results selI confirmI).1.length = s.length := by
  unfold delete_after_search
  split
  · rfl
  · split
    · rfl
    · split
      · rfl
      · exact delete_selected_fst_length _ _ _

theorem delete_student_fst_length (s : Store) (nameI selI confirmI : String) :
    (delete_student s nameI selI confirmI).1.length = s.length :=
  delete_after_search_fst_length _ _ _ _

theorem register_student_cases (s : Store) (n a g d e p : String) :
    register_student s n a g d e p = (s, none) ∨
      ((register_student s n a g d e p).2 = some ("S" ++ pyStrNat (1000 + (s.length + 1))) ∧
       (register_student s n a g d e p).1.length = s.length + 1) := by
  rcases hv : validate_student_data (pyStrip n) (pyStrip a) (pyUpper (pyStrip g))
      (pyStrip e) (pyStrip p) with ⟨b, msg⟩
  cases b
  · left
    simp only [register_student]
    rw [hv]
  · cases hia : pyIntOfString (pyStrip a)
    · left
      simp only [register_student]
      rw [hv, hia]
    · right
      constructor
      · simp only [register_student]
        rw [hv, hia]
      · simp only [register_student]
        rw [hv, hia]
        simp

theorem applyOp_length_le (s : Store) (o : SessionOp) :
    s.length ≤ (applyOp s o).1.length := by
  cases o with
  | register n a g d e p =>
    rcases register_student_cases s n a g d e p with h | h
    · simp [applyOp, h]
    · simp only [applyOp]
      omega
  | edit n sel c n2 a2 g2 d2 e2 p2 =>
    simp [applyOp, edit_student_fst_length]
  | delete n sel c =>
    simp [applyOp, delete_student_fst_length]
  | view => exact Nat.le_refl _
  | search kw => exact Nat.le_refl _
  | exportCsv => exact Nat.le_refl _

theorem applyOp_some (s : Store) (o : SessionOp) {s2 : Store} {id : String}
    (h : applyOp s o = (s2, some id)) :
    id = "S" ++ pyStrNat (1000 + (s.length + 1)) ∧ s2.length = s.length + 1 := by
  cases o with
  | register n a g d e p =>
    rcases register_student_cases s n a g d e p with hc | hc
    · rw [applyOp, hc] at h
      exact absurd (congrArg Prod.snd h) (by simp)
    · rw [applyOp] at h
      constructor
      · have := hc.1
        rw [h] at this
        simpa using this
      · have := hc.2
        rw [h] at this
        simpa using this
  | edit n sel c n2 a2 g2 d2 e2 p2 => exact absurd (congrArg Prod.snd h) (by simp [applyOp])
  | delete n sel c => exact absurd (congrArg Prod.snd h) (by simp [applyOp])
  | view => exact absurd (congrArg Prod.snd h) (by simp [applyOp])
  | search kw => exact absurd (congrArg Prod.snd h) (by simp [applyOp])
  | exportCsv => exact absurd (congrArg Prod.snd h) (by simp [applyOp])

/-- Every id number assigned later in a session is at least the one a
registration at the current store would get. -/
theorem session_nums_lb : ∀ (ops : List SessionOp) (s : Store),
    ∀ m ∈ session_nums s ops, 1000 + (s.length + 1) ≤ m := by
  intro ops
  induction ops with
  | nil => intro s m hm; simp [session_nums] at hm
  | cons o rest ih =>
    intro s m hm
    rw [session_nums] at hm
    rcases hAp : applyOp s o with ⟨s2, oid⟩
    rw [hAp] at hm
    have hlen : s.length ≤ s2.length := by
      have := applyOp_length_le s o
      rw [hAp] at this
      exact this
    cases oid with
    | none =>
      have := ih s2 m hm
      omega
    | some id =>
      rcases List.mem_cons.mp hm with h | h
      · omega
      · have := ih s2 m h
        omega

/-- The id numbers assigned during a session are strictly increasing. -/
theorem session_nums_pairwise : ∀ (ops : List SessionOp) (s : Store),
    (session_nums s ops).Pairwise (· < ·) := by
  intro ops
  induction ops with
  | nil => intro s; simp [session_nums]
  | cons o rest ih =>
    intro s
    rw [session_nums]
    rcases hAp : applyOp s o with ⟨s2, oid⟩
    cases oid with
    | none => exact ih s2
    | some id =>
      refine List.Pairwise.cons ?_ (ih s2)
      intro m hm
      have hlb := session_nums_lb rest s2 m hm
      have hlen := (applyOp_some s o hAp).2
      omega

/-- The id strings of a session are the rendered id numbers. -/
theorem session_ids_eq_map : ∀ (ops : List SessionOp) (s : Store),
    session_ids s ops = (session_nums s ops).map (fun m => "S" ++ pyStrNat m) := by
  intro ops
  induction ops with
  | nil => intro s; rfl
  | cons o rest ih =>
    intro s
    rw [session_ids, session_nums]
    rcases hAp : applyOp s o with ⟨s2, oid⟩
    cases oid with
    | none => exact ih s2
    | some id =>
      rw [List.map_cons, ← ih s2, (applyOp_some s o hAp).1]

/-- `"S" + str(m)` determines `m`. -/
theorem render_id_inj {m k : Nat} (h : "S" ++ pyStrNat m = "S" ++ pyStrNat k) : m = k := by
  have hd : ("S" ++ pyStrNat m).data = ("S" ++ pyStrNat k).data := congrArg String.data h
  rw [String.data_append, String.data_append] at hd
  have hd2 : (pyStrNat m).data = (pyStrNat k).data := by
    simpa using hd
  have h1 : natPart (pyStrNat m).toList = natPart (pyStrNat k).toList := by
    show natPart (pyStrNat m).data = natPart (pyStrNat k).data
    rw [hd2]
  rw [natPart_pyStrNat, natPart_pyStrNat] at h1
  exact Option.some_injective _ h1

/-! ### Bridging lemma for the phone rule -/

theorem phoneCore_getLast_digit {l : List Char} (h : phoneCore l = true) :
    ∃ c, l.getLast? = some c ∧ c.isDigit = true := by
  unfold phoneCore at h
  simp only [Bool.and_eq_true, decide_eq_true_eq, List.all_eq_true] at h
  obtain ⟨⟨h10, _⟩, hall⟩ := h
  have hne : l ≠ [] := by
    intro he
    rw [he] at h10
    simp at h10
  cases hg : l.getLast? with
  | none => exact absurd (List.getLast?_eq_none_iff.mp hg) hne
  | some c => exact ⟨c, rfl, hall c (mem_of_getLast?_eq hg)⟩

theorem dropPlus_append_last {l : List Char} (hl : l ≠ []) (x : Char) :
    dropPlus (l ++ [x]) = dropPlus l ++ [x] := by
  cases l with
  | nil => exact absurd rfl hl
  | cons c r =>
    simp only [List.cons_append, dropPlus]
    split <;> simp

theorem dropPlus_ne_nil_of_phoneCore {l : List Char} (h : phoneCore (dropPlus l) = true) :
    l ≠ [] := by
  intro he
  subst he
  simp [dropPlus, phoneCore] at h

/-- `re.match(r"^\+?\d{10,15}$", p)` succeeds exactly on whole-string
matches of `\+?\d{10,15}`, possibly followed by one trailing newline. -/
theorem phoneOk_iff (p : String) :
    phoneOk p = true ↔
      (spec_phone_whole p = true ∨
        ∃ q : String, p = q ++ "\n" ∧ spec_phone_whole q = true) := by
  constructor
  · intro h
    simp only [phoneOk] at h
    split_ifs at h with hg
    · right
      refine ⟨⟨p.toList.dropLast⟩, ?_, ?_⟩
      · have hne : dropPlus p.toList ≠ [] := by
          intro he
          rw [he] at hg
          simp at hg
        have hplast : p.toList.getLast? = some '\n' := by
          cases hl : p.toList with
          | nil => rw [hl] at hg; simp [dropPlus] at hg
          | cons c r =>
            rw [hl] at hg
            simp only [dropPlus] at hg
            split_ifs at hg with hc
            · subst hc
              cases r with
              | nil => simp at hg
              | cons c2 r2 => rw [List.getLast?_cons_cons]; exact hg
            · exact hg
        obtain ⟨c, hc, he⟩ : ∃ c, p.toList.getLast? = some c ∧ c = '\n' :=
          ⟨'\n', hplast, rfl⟩
        have hpne : p.toList ≠ [] := by
          intro hx
          rw [hx] at hplast
          simp at hplast
        apply String.ext
        show p.data = p.data.dropLast ++ ('\n' :: [])
        have := List.dropLast_append_getLast hpne
        rw [List.getLast?_eq_getLast _ hpne] at hplast
        have hlast : p.toList.getLast hpne = '\n' := by
          simpa using hplast
        rw [← hlast]
        exact this.symm
      · unfold spec_phone_whole
        have hne : dropPlus p.toList ≠ [] := by
          intro he
          rw [he] at hg
          simp at hg
        have hcomm : dropPlus (p.toList.dropLast) = (dropPlus p.toList).dropLast := by
          cases hl : p.toList with
          | nil => simp [dropPlus]
          | cons c r =>
            simp only [dropPlus]
            split_ifs with hc
            · cases r with
              | nil =>
                subst hc
                rw [hl] at hg
                simp [dropPlus] at hg
              | cons c2 r2 =>
                rw [List.dropLast_cons₂]
                simp [dropPlus, hc]
            · cases r with
              | nil =>
                rw [hl] at hg
                simp only [dropPlus, if_neg hc] at hg
                simp at hg
                subst hg
                simp [dropPlus, hc]
              | cons c2 r2 =>
                rw [List.dropLast_cons₂]
                simp [dropPlus, hc]
        show phoneCore (dropPlus (⟨p.toList.dropLast⟩ : String).toList) = true
        have hq : (⟨p.toList.dropLast⟩ : String).toList = p.toList.dropLast := rfl
        rw [hq, hcomm]
        exact h
    · left
      exact h
  · intro h
    rcases h with h | ⟨q, hp, hq⟩
    · unfold spec_phone_whole at h
      obtain ⟨c, hc, hcd⟩ := phoneCore_getLast_digit h
      simp only [phoneOk]
      rw [if_neg ?_]
      · exact h
      · rw [hc]
        intro he
        have : c = '\n' := by simpa using he
        subst this
        exact absurd hcd (by decide)
    · unfold spec_phone_whole at hq
      have hqne : q.toList ≠ [] := dropPlus_ne_nil_of_phoneCore hq
      have hdata : p.toList = q.toList ++ ['\n'] := by
        rw [hp]
        exact String.data_append q "\n"
      simp only [phoneOk]
      rw [hdata, dropPlus_append_last hqne, List.getLast?_concat,
        if_pos rfl, List.dropLast_concat]
      exact hq

/-! ### More helper lemmas for the store operations -/

/-- An active row of the store after a soft delete cannot carry the
deleted id. -/
theorem soft_delete_active_ne {s : Store} {id : String} {r : Student}
    (hr : r ∈ soft_delete s id) (hst : r.status = true) : r.student_id ≠ id := by
  unfold soft_delete at hr
  obtain ⟨r0, hr0, he⟩ := List.mem_map.mp hr
  by_cases hid : r0.student_id = id
  · rw [if_pos hid] at he
    rw [← he] at hst
    simp at hst
  · rw [if_neg hid] at he
    rw [← he]
    exact hid

/-- Updating a record with its own field values is the identity (given
unique ids). -/
theorem update_students_self {s : Store} {sel : Student}
    (hnd : (s.map (fun r => r.student_id)).Nodup) (hsel : sel ∈ s) :
    update_students s sel.student_id sel.name sel.age sel.gender
      sel.department sel.email sel.phone = s := by
  unfold update_students
  have hcong : ∀ r ∈ s, (if r.student_id = sel.student_id then
      { r with name := sel.name, age := sel.age, gender := sel.gender,
               department := sel.department, email := sel.email, phone := sel.phone }
      else r) = r := by
    intro r hr
    by_cases hid : r.student_id = sel.student_id
    · have he : r = sel := List.inj_on_of_nodup_map hnd hr hsel hid
      subst he
      rw [if_pos hid]
    · rw [if_neg hid]
  rw [List.map_congr_left hcong]
  simp

theorem edit_selected_all_blank {s : Store} {sel : Student} (confI : String)
    (hnd : (s.map (fun r => r.student_id)).Nodup) (hsel : sel ∈ s) :
    (edit_selected s sel confI "" "" "" "" "" "").1 = s := by
  unfold edit_selected
  split
  · rfl
  · split
    · rename_i s2 hupd
      simp only [pyStrip_empty, pyUpper_empty, pyOr_empty] at hupd
      unfold update_checked at hupd
      rcases hv : validate_student_data sel.name (pyStrInt sel.age) sel.gender
          sel.email sel.phone with ⟨b, msg⟩
      rw [hv] at hupd
      cases b
      · simp at hupd
      · rw [pyIntOfString_pyStrInt sel.age] at hupd
        have hfst := congrArg Prod.fst hupd
        simp only at hfst
        rw [← hfst]
        exact update_students_self hnd hsel
    · rfl

theorem edit_after_search_all_blank (s : Store) (results : List Student)
    (selI confI : String)
    (hnd : (s.map (fun r => r.student_id)).Nodup)
    (hres : ∀ r ∈ results, r ∈ s) :
    (edit_after_search s results selI confI "" "" "" "" "" "").1 = s := by
  unfold edit_after_search
  split
  · rfl
  · split
    · rfl
    · split
      · rfl
      · rename_i choice hchoice hrange
        have hb : 1 ≤ choice ∧ choice ≤ (results.length : Int) := not_not.mp hrange
        have hidx : choice.toNat - 1 < results.length := by omega
        exact edit_selected_all_blank confI hnd (hres _ (getD_mem hidx))

/-- Outcomes reachable from the confirmation/update stage of an edit. -/
theorem edit_selected_outcomes (s : Store) (sel : Student)
    (confI n a g d e p : String) :
    (edit_selected s sel confI n a g d e p).2 = .cancelled ∨
    (edit_selected s sel confI n a g d e p).2 = .validationFailed ∨
    (edit_selected s sel confI n a g d e p).2 = .updated sel.student_id := by
  unfold edit_selected
  split
  · left; rfl
  · split
    · right; right; rfl
    · right; left; rfl

/-- Outcomes reachable from the confirmation stage of a delete. -/
theorem delete_selected_outcomes (s : Store) (sel : Student) (confI : String) :
    (delete_selected s sel confI).2 = .cancelled ∨
    (delete_selected s sel confI).2 = .deleted sel.student_id := by
  unfold delete_selected
  split
  · left; rfl
  · right; rfl

theorem edit_after_search_nil (s : Store) (selI confI n a g d e p : String) :
    edit_after_search s [] selI confI n a g d e p = (s, .notFound) := by
  simp [edit_after_search]

theorem delete_after_search_nil (s : Store) (selI confI : String) :
    delete_after_search s [] selI confI = (s, .notFound) := by
  simp [delete_after_search]

theorem isEmpty_false_of_one_lt {results : List Student}
    (h : 1 < results.length) : results.isEmpty = false := by
  cases results with
  | nil => simp at h
  | cons r rest => rfl

theorem edit_after_search_nonnum {results : List Student} {selI : String}
    (h1 : 1 < results.length) (h2 : pyIntOfString selI = none)
    (s : Store) (confI n a g d e p : String) :
    edit_after_search s results selI confI n a g d e p = (s, .nonNumericSelection) := by
  unfold edit_after_search
  rw [if_neg (by simp [isEmpty_false_of_one_lt h1])]
  unfold select_index
  rw [if_pos h1, h2]

theorem delete_after_search_nonnum {results : List Student} {selI : String}
    (h1 : 1 < results.length) (h2 : pyIntOfString selI = none)
    (s : Store) (confI : String) :
    delete_after_search s results selI confI = (s, .nonNumericSelection) := by
  unfold delete_after_search
  rw [if_neg (by simp [isEmpty_false_of_one_lt h1])]
  unfold select_index
  rw [if_pos h1, h2]

theorem edit_after_search_invalid {results : List Student} {selI : String} {c : Int}
    (h1 : 1 < results.length) (h2 : pyIntOfString selI = some c)
    (h3 : c < 1 ∨ (results.length : Int) < c)
    (s : Store) (confI n a g d e p : String) :
    edit_after_search s results selI confI n a g d e p = (s, .invalidSelection) := by
  unfold edit_after_search
  rw [if_neg (by simp [isEmpty_false_of_one_lt h1])]
  unfold select_index
  rw [if_pos h1, h2]
  show (if ¬ (1 ≤ c ∧ c ≤ (results.length : Int)) then (s, FlowOutcome.invalidSelection)
      else edit_selected s (results.getD (c.toNat - 1) default) confI n a g d e p) =
    (s, FlowOutcome.invalidSelection)
  rw [if_pos (by omega)]

theorem delete_after_search_invalid {results : List Student} {selI : String} {c : Int}
    (h1 : 1 < results.length) (h2 : pyIntOfString selI = some c)
    (h3 : c < 1 ∨ (results.length : Int) < c)
    (s : Store) (confI : String) :
    delete_after_search s results selI confI = (s, .invalidSelection) := by
  unfold delete_after_search
  rw [if_neg (by simp [isEmpty_false_of_one_lt h1])]
  unfold select_index
  rw [if_pos h1, h2]
  show (if ¬ (1 ≤ c ∧ c ≤ (results.length : Int)) then (s, FlowOutcome.invalidSelection)
      else delete_selected s (results.getD (c.toNat - 1) default) confI) =
    (s, FlowOutcome.invalidSelection)
  rw [if_pos (by omega)]

theorem edit_after_search_inrange {results : List Student} {selI : String} {c : Int}
    (h1 : 1 < results.length) (h2 : pyIntOfString selI = some c)
    (h3 : 1 ≤ c) (h4 : c ≤ (results.length : Int))
    (s : Store) (confI n a g d e p : String) :
    edit_after_search s results selI confI n a g d e p =
      edit_selected s (results.getD (c.toNat - 1) default) confI n a g d e p := by
  unfold edit_after_search
  rw [if_neg (by simp [isEmpty_false_of_one_lt h1])]
  unfold select_index
  rw [if_pos h1, h2]
  show (if ¬ (1 ≤ c ∧ c ≤ (results.length : Int)) then (s, FlowOutcome.invalidSelection)
      else edit_selected s (results.getD (c.toNat - 1) default) confI n a g d e p) = _
  rw [if_neg (by omega)]

theorem delete_after_search_inrange {results : List Student} {selI : String} {c : Int}
    (h1 : 1 < results.length) (h2 : pyIntOfString selI = some c)
    (h3 : 1 ≤ c) (h4 : c ≤ (results.length : Int))
    (s : Store) (confI : String) :
    delete_after_search s results selI confI =
      delete_selected s (results.getD (c.toNat - 1) default) confI := by
  unfold delete_after_search
  rw [if_neg (by simp [isEmpty_false_of_one_lt h1])]
  unfold select_index
  rw [if_pos h1, h2]
  show (if ¬ (1 ≤ c ∧ c ≤ (results.length : Int)) then (s, FlowOutcome.invalidSelection)
      else delete_selected s (results.getD (c.toNat - 1) default) confI) = _
  rw [if_neg (by omega)]

theorem edit_after_search_single {results : List Student}
    (h1 : results.length = 1) (s : Store) (selI selI2 confI n a g d e p : String) :
    edit_after_search s results selI confI n a g d e p =
      edit_after_search s results selI2 confI n a g d e p := by
  unfold edit_after_search select_index
  rw [h1]
  simp

theorem delete_after_search_single {results : List Student}
    (h1 : results.length = 1) (s : Store) (selI selI2 confI : String) :
    delete_after_search s results selI confI =
      delete_after_search s results selI2 confI := by
  unfold delete_after_search select_index
  rw [h1]
  simp

/-- The login loop issues at most `attempts + rem` prompts in total. -/
theorem login_go_prompts_le (t : Nat → Bool) : ∀ (rem attempts : Nat),
    (login_go t attempts rem).2 ≤ attempts + rem := by
  intro rem
  induction rem with
  | zero => intro a; simp [login_go]
  | succ r ih =>
    intro a
    rw [login_go]
    split_ifs
    · simp
    · simp
    · have := ih (a + 1)
      omega

/-! ### The claims -/

/-- C1 (counterexample): the candidate set used by edit/delete differs
from the spec's "name or department" set: for the keyword "Math" and a
store holding one active student named "Bob" in department "Math", the
edit/delete query returns nothing while the spec's set contains the
student — edit/delete search the name column only. -/
theorem C1_candidates_cex :
    find_active_by_name [sampleStudent] "Math" ≠ spec_candidates [sampleStudent] "Math" := by
  decide

/-- C1 (amended): the candidate set presented for selection by the edit
and delete flows consists of exactly the active records whose NAME
contains the keyword as a case-insensitive substring; the department
column is not consulted (unlike the standalone search). -/
theorem C1_candidates_iff (s : Store) (kw : String) (r : Student) :
    r ∈ find_active_by_name s kw ↔
      r ∈ s ∧ r.status = true ∧ (pyUpper kw).toList <:+: (pyUpper r.name).toList := by
  unfold find_active_by_name likeMatch
  simp only [List.mem_filter, Bool.and_eq_true, decide_eq_true_eq]
  tauto

/-- C2 (counterexample): the email "a@b.c@d" contains a second '@' and is
nevertheless accepted, because `re.match` only requires a prefix of the
string to match the pattern. -/
theorem C2_email_second_at_cex :
    "a@b.c@d".toList.count '@' = 2 ∧
    validate_student_data "Al" "30" "M" "a@b.c@d" "1234567890" = (true, "") := by
  exact ⟨by decide, by decide⟩

/-- C2 (amended): the email check only constrains a prefix of the string:
appending any text — including a second '@' — to an accepted email keeps
the whole validation accepting. -/
theorem C2_email_prefix_monotone (n a g e p t : String)
    (h : validate_student_data n a g e p = (true, "")) :
    validate_student_data n a g (e ++ t) p = (true, "") := by
  rw [validate_true_iff] at h ⊢
  obtain ⟨h1, h2, h3, h4, h5⟩ := h
  exact ⟨h1, h2, h3, emailMatch_append t h4, h5⟩

theorem C2_email_prefix_monotone_witness :
    validate_student_data "Al" "30" "M" ("a@b.co" ++ "@x") "1234567890" = (true, "") :=
  C2_email_prefix_monotone "Al" "30" "M" "a@b.co" "1234567890" "@x" (by decide)

/-- C3 (counterexample): the phone rule is not a whole-string match: the
phone "1234567890\n" does not match `\+?\d{10,15}` as a whole string, yet
validation accepts it, because Python's `$` also matches just before a
trailing newline. -/
theorem C3_validate_rules_cex :
    validate_student_data "Al" "30" "M" "a@b.co" "1234567890\n" = (true, "") ∧
    spec_phone_whole "1234567890\n" = false := by
  exact ⟨by decide, by decide⟩

/-- C3 (amended): the rules are checked in the order name, age, gender,
email, phone, first failure wins, with the stated messages and bounds;
the phone rule is a whole-string match of `\+?\d{10,15}` except that one
trailing newline is tolerated (Python `$` semantics). -/
theorem C3_validate_rules (n a g e p : String) :
    ((n = "" ∨ n.length < 2) →
      validate_student_data n a g e p = (false, "Name must be at least 2 characters.")) ∧
    (¬ (n = "" ∨ n.length < 2) → pyIntOfString a = none →
      validate_student_data n a g e p = (false, "Age must be a valid number.")) ∧
    (∀ v : Int, ¬ (n = "" ∨ n.length < 2) → pyIntOfString a = some v →
      ¬ (10 ≤ v ∧ v ≤ 100) →
      validate_student_data n a g e p = (false, "Age must be between 10 and 100.")) ∧
    (∀ v : Int, ¬ (n = "" ∨ n.length < 2) → pyIntOfString a = some v →
      10 ≤ v → v ≤ 100 →
      ¬ (pyUpper g = "M" ∨ pyUpper g = "F" ∨ pyUpper g = "OTHER") →
      validate_student_data n a g e p = (false, "Gender must be M, F, or Other.")) ∧
    (∀ v : Int, ¬ (n = "" ∨ n.length < 2) → pyIntOfString a = some v →
      10 ≤ v → v ≤ 100 →
      (pyUpper g = "M" ∨ pyUpper g = "F" ∨ pyUpper g = "OTHER") →
      emailMatch e = false →
      validate_student_data n a g e p = (false, "Invalid email format.")) ∧
    (∀ v : Int, ¬ (n = "" ∨ n.length < 2) → pyIntOfString a = some v →
      10 ≤ v → v ≤ 100 →
      (pyUpper g = "M" ∨ pyUpper g = "F" ∨ pyUpper g = "OTHER") →
      emailMatch e = true → phoneOk p = false →
      validate_student_data n a g e p = (false, "Phone number must be 10-15 digits.")) ∧
    (validate_student_data n a g e p = (true, "") ↔
      ¬ (n = "" ∨ n.length < 2) ∧
      (∃ v, pyIntOfString a = some v ∧ 10 ≤ v ∧ v ≤ 100) ∧
      (pyUpper g = "M" ∨ pyUpper g = "F" ∨ pyUpper g = "OTHER") ∧
      emailMatch e = true ∧ phoneOk p = true) ∧
    (phoneOk p = true ↔
      (spec_phone_whole p = true ∨
        ∃ q : String, p = q ++ "\n" ∧ spec_phone_whole q = true)) := by
  refine ⟨?_, ?_, ?_, ?_, ?_, ?_, validate_true_iff n a g e p, phoneOk_iff p⟩
  · intro h
    simp [validate_student_data, h]
  · intro h1 h2
    unfold validate_student_data
    rw [if_neg h1, h2]
  · intro v h1 h2 h3
    simp [validate_student_data, h1, h2, h3]
  · intro v h1 h2 h3 h4 h5
    simp [validate_student_data, h1, h2, h3, h4, h5]
  · intro v h1 h2 h3 h4 h5 h6
    simp [validate_student_data, h1, h2, h3, h4, h5, h6]
  · intro v h1 h2 h3 h4 h5 h6 h7
    simp [validate_student_data, h1, h2, h3, h4, h5, h6, h7]

theorem C3_validate_rules_witness :
    validate_student_data "A" "30" "M" "a@b.co" "1234567890" =
      (false, "Name must be at least 2 characters.") ∧
    validate_student_data "Al" "abc" "M" "a@b.co" "1234567890" =
      (false, "Age must be a valid number.") ∧
    validate_student_data "Al" "9" "M" "a@b.co" "1234567890" =
      (false, "Age must be between 10 and 100.") ∧
    validate_student_data "Al" "101" "M" "a@b.co" "1234567890" =
      (false, "Age must be between 10 and 100.") ∧
    validate_student_data "Al" "10" "M" "a@b.co" "1234567890" = (true, "") ∧
    validate_student_data "Al" "100" "M" "a@b.co" "1234567890" = (true, "") ∧
    validate_student_data "Al" "30" "X" "a@b.co" "1234567890" =
      (false, "Gender must be M, F, or Other.") ∧
    validate_student_data "Al" "30" "M" "bad-email" "1234567890" =
      (false, "Invalid email format.") ∧
    validate_student_data "Al" "30" "M" "a@b.co" "12345" =
      (false, "Phone number must be 10-15 digits.") := by
  refine ⟨(C3_validate_rules "A" "30" "M" "a@b.co" "1234567890").1 (by decide),
    (C3_validate_rules "Al" "abc" "M" "a@b.co" "1234567890").2.1 (by decide) (by decide),
    (C3_validate_rules "Al" "9" "M" "a@b.co" "1234567890").2.2.1 9 (by decide) (by decide)
      (by omega),
    (C3_validate_rules "Al" "101" "M" "a@b.co" "1234567890").2.2.1 101 (by decide) (by decide)
      (by omega),
    (C3_validate_rules "Al" "10" "M" "a@b.co" "1234567890").2.2.2.2.2.2.1.mpr
      ⟨by decide, ⟨10, by decide, by decide, by decide⟩, by decide, by decide, by decide⟩,
    (C3_validate_rules "Al" "100" "M" "a@b.co" "1234567890").2.2.2.2.2.2.1.mpr
      ⟨by decide, ⟨100, by decide, by decide, by decide⟩, by decide, by decide, by decide⟩,
    (C3_validate_rules "Al" "30" "X" "a@b.co" "1234567890").2.2.2.1 30 (by decide) (by decide)
      (by decide) (by decide) (by decide),
    (C3_validate_rules "Al" "30" "M" "bad-email" "1234567890").2.2.2.2.1 30 (by decide)
      (by decide) (by decide) (by decide) (by decide) (by decide),
    (C3_validate_rules "Al" "30" "M" "a@b.co" "12345").2.2.2.2.2.1 30 (by decide) (by decide)
      (by decide) (by decide) (by decide) (by decide) (by decide)⟩

/-- C4: a registration assigns the id `"S" + str(1000 + row count + 1)`
(or assigns nothing when validation fails), and across any session the
assigned id numbers are strictly increasing and the id strings pairwise
distinct — deletes are soft, so the row count never decreases. -/
theorem C4_registration_ids (s : Store) (ops : List SessionOp) :
    session_ids s ops = (session_nums s ops).map (fun m => "S" ++ pyStrNat m) ∧
    (session_nums s ops).Pairwise (· < ·) ∧
    (session_ids s ops).Pairwise (· ≠ ·) ∧
    ∀ n a g d e p : String,
      (register_student s n a g d e p).2 = none ∨
      (register_student s n a g d e p).2 = some ("S" ++ pyStrNat (1000 + (s.length + 1))) := by
  refine ⟨session_ids_eq_map ops s, session_nums_pairwise ops s, ?_, ?_⟩
  · rw [session_ids_eq_map ops s, List.pairwise_map]
    refine List.Pairwise.imp ?_ (session_nums_pairwise ops s)
    intro a b hab he
    exact absurd (render_id_inj he) (Nat.ne_of_lt hab)
  · intro n a g d e p
    rcases register_student_cases s n a g d e p with h | h
    · left; rw [h]
    · right; exact h.1

/-- C5: an edit in which every override input is blank leaves the store
unchanged on every control path — each blank input falls back to the
current value, the age round-trips through `str`/`int`, and the re-issued
UPDATE writes back the identical fields (ids are assumed unique, as the
primary key guarantees). -/
theorem C5_edit_all_blank (s : Store) (kwI selI confI : String)
    (hnd : (s.map (fun r => r.student_id)).Nodup) :
    (edit_student s kwI selI confI "" "" "" "" "" "").1 = s := by
  unfold edit_student
  apply edit_after_search_all_blank s _ selI confI hnd
  intro r hr
  unfold find_active_by_name at hr
  exact (List.mem_filter.mp hr).1

theorem C5_edit_all_blank_witness :
    (edit_student [sampleStudent] "Bob" "" "y" "" "" "" "" "" "").1 = [sampleStudent] :=
  C5_edit_all_blank [sampleStudent] "Bob" "" "y" (by decide)

/-- C6: in the edit and delete flows, zero matches is a reported
"not found" with no mutation; with more than one match a non-numeric or
out-of-range selection is rejected with no mutation, while an in-range
numeric selection proceeds to the confirmation stage; a single match is
auto-selected — the result does not depend on the selection input. -/
theorem C6_selection_flow (s : Store) (kwI selI confI n2 a2 g2 d2 e2 p2 : String) :
    (find_active_by_name s (pyStrip kwI) = [] →
      edit_student s kwI selI confI n2 a2 g2 d2 e2 p2 = (s, FlowOutcome.notFound) ∧
      delete_student s kwI selI confI = (s, FlowOutcome.notFound)) ∧
    (1 < (find_active_by_name s (pyStrip kwI)).length → pyIntOfString selI = none →
      edit_student s kwI selI confI n2 a2 g2 d2 e2 p2 = (s, FlowOutcome.nonNumericSelection) ∧
      delete_student s kwI selI confI = (s, FlowOutcome.nonNumericSelection)) ∧
    (∀ c : Int, 1 < (find_active_by_name s (pyStrip kwI)).length →
      pyIntOfString selI = some c →
      (c < 1 ∨ ((find_active_by_name s (pyStrip kwI)).length : Int) < c) →
      edit_student s kwI selI confI n2 a2 g2 d2 e2 p2 = (s, FlowOutcome.invalidSelection) ∧
      delete_student s kwI selI confI = (s, FlowOutcome.invalidSelection)) ∧
    (∀ c : Int, 1 < (find_active_by_name s (pyStrip kwI)).length →
      pyIntOfString selI = some c → 1 ≤ c →
      c ≤ ((find_active_by_name s (pyStrip kwI)).length : Int) →
      ((edit_student s kwI selI confI n2 a2 g2 d2 e2 p2).2 = FlowOutcome.cancelled ∨
       (edit_student s kwI selI confI n2 a2 g2 d2 e2 p2).2 = FlowOutcome.validationFailed ∨
       ∃ sid, (edit_student s kwI selI confI n2 a2 g2 d2 e2 p2).2 = FlowOutcome.updated sid) ∧
      ((delete_student s kwI selI confI).2 = FlowOutcome.cancelled ∨
       ∃ sid, (delete_student s kwI selI confI).2 = FlowOutcome.deleted sid)) ∧
    ((find_active_by_name s (pyStrip kwI)).length = 1 →
      (∀ selI2, edit_student s kwI selI2 confI n2 a2 g2 d2 e2 p2 =
        edit_student s kwI selI confI n2 a2 g2 d2 e2 p2) ∧
      (∀ selI2, delete_student s kwI selI2 confI = delete_student s kwI selI confI)) := by
  refine ⟨?_, ?_, ?_, ?_, ?_⟩
  · intro h
    unfold edit_student delete_student
    rw [h]
    exact ⟨edit_after_search_nil s selI confI n2 a2 g2 d2 e2 p2,
      delete_after_search_nil s selI confI⟩
  · intro h1 h2
    unfold edit_student delete_student
    exact ⟨edit_after_search_nonnum h1 h2 s confI n2 a2 g2 d2 e2 p2,
      delete_after_search_nonnum h1 h2 s confI⟩
  · intro c h1 h2 h3
    unfold edit_student delete_student
    exact ⟨edit_after_search_invalid h1 h2 h3 s confI n2 a2 g2 d2 e2 p2,
      delete_after_search_invalid h1 h2 h3 s confI⟩
  · intro c h1 h2 h3 h4
    unfold edit_student delete_student
    constructor
    · rw [edit_after_search_inrange h1 h2 h3 h4]
      rcases edit_selected_outcomes s
          ((find_active_by_name s (pyStrip kwI)).getD (c.toNat - 1) default)
          confI n2 a2 g2 d2 e2 p2 with h | h | h
      · exact Or.inl h
      · exact Or.inr (Or.inl h)
      · exact Or.inr (Or.inr ⟨_, h⟩)
    · rw [delete_after_search_inrange h1 h2 h3 h4]
      rcases delete_selected_outcomes s
          ((find_active_by_name s (pyStrip kwI)).getD (c.toNat - 1) default)
          confI with h | h
      · exact Or.inl h
      · exact Or.inr ⟨_, h⟩
  · intro h1
    unfold edit_student delete_student
    exact ⟨fun selI2 => edit_after_search_single h1 s selI2 selI confI n2 a2 g2 d2 e2 p2,
      fun selI2 => delete_after_search_single h1 s selI2 selI confI⟩

/-- A second sample row, so that a keyword can match several students. -/
def sampleStudent2 : Student :=
  { student_id := "S1002", name := "Bobby", age := 21, gender := "F",
    department := "Physics", email := "c@d.ef", phone := "1234567891", status := true }

theorem C6_selection_flow_witness :
    edit_student [sampleStudent, sampleStudent2] "Bob" "x" "y" "" "" "" "" "" "" =
      ([sampleStudent, sampleStudent2], FlowOutcome.nonNumericSelection) ∧
    delete_student [sampleStudent, sampleStudent2] "Bob" "5" "y" =
      ([sampleStudent, sampleStudent2], FlowOutcome.invalidSelection) := by
  constructor
  · exact ((C6_selection_flow [sampleStudent, sampleStudent2] "Bob" "x" "y"
      "" "" "" "" "" "").2.1 (by decide) (by decide)).1
  · exact ((C6_selection_flow [sampleStudent, sampleStudent2] "Bob" "5" "y"
      "" "" "" "" "" "").2.2.1 5 (by decide) (by decide) (by decide)).2

/-- C7: `soft_delete` only flips the `status` flag of the rows carrying
the given id: the store keeps its length, other rows are untouched, the
deleted row keeps every other field; afterwards no `view_students`,
`search_students` or `export_to_csv` row carries the deleted id, yet the
row is still present in storage. -/
theorem C7_soft_delete (s : Store) (id : String) :
    (soft_delete s id).length = s.length ∧
    (∀ (i : Nat) (r : Student), s[i]? = some r → r.student_id ≠ id →
      (soft_delete s id)[i]? = some r) ∧
    (∀ (i : Nat) (r : Student), s[i]? = some r → r.student_id = id →
      (soft_delete s id)[i]? = some { r with status := false }) ∧
    (∀ row ∈ view_students (soft_delete s id), row.1 ≠ id) ∧
    (∀ kw : String, ∀ row ∈ search_students (soft_delete s id) kw, row.1 ≠ id) ∧
    (∀ row ∈ export_to_csv (soft_delete s id), row.1 ≠ id) := by
  refine ⟨soft_delete_length s id, ?_, ?_, ?_, ?_, ?_⟩
  · intro i r hi hne
    unfold soft_delete
    rw [List.getElem?_map, hi]
    simp [hne]
  · intro i r hi heq
    unfold soft_delete
    rw [List.getElem?_map, hi]
    simp [heq]
  · intro row hrow
    unfold view_students at hrow
    obtain ⟨r2, hr2, he⟩ := List.mem_map.mp hrow
    obtain ⟨hmem, hst⟩ := List.mem_filter.mp hr2
    rw [← he]
    exact soft_delete_active_ne hmem hst
  · intro kw row hrow
    unfold search_students spec_candidates at hrow
    obtain ⟨r2, hr2, he⟩ := List.mem_map.mp hrow
    obtain ⟨hmem, hp⟩ := List.mem_filter.mp hr2
    have hst : r2.status = true := by
      simp only [Bool.and_eq_true] at hp
      exact hp.2
    rw [← he]
    exact soft_delete_active_ne hmem hst
  · intro row hrow
    unfold export_to_csv at hrow
    obtain ⟨r2, hr2, he⟩ := List.mem_map.mp hrow
    obtain ⟨hmem, hst⟩ := List.mem_filter.mp hr2
    rw [← he]
    exact soft_delete_active_ne hmem hst

theorem C7_soft_delete_witness :
    (soft_delete [sampleStudent] "S1001")[0]? =
      some { sampleStudent with status := false } ∧
    (soft_delete [sampleStudent] "S9999")[0]? = some sampleStudent := by
  constructor
  · exact (C7_soft_delete [sampleStudent] "S1001").2.2.1 0 sampleStudent (by decide) (by decide)
  · exact (C7_soft_delete [sampleStudent] "S9999").2.1 0 sampleStudent (by decide) (by decide)

/-- C8: the edit UPDATE re-validates before writing: on a validation
failure nothing is written; on success exactly the six editable fields of
the rows with the given id are overwritten, while `student_id` and the
active flag of every row — and all other rows — are unchanged. -/
theorem C8_update_frame (s : Store) (id n a g d e p : String) :
    ((validate_student_data n a g e p).1 = false →
      update_checked s id n a g d e p = (s, false)) ∧
    ((validate_student_data n a g e p).1 = true →
      ∃ v, pyIntOfString a = some v ∧
        update_checked s id n a g d e p = (update_students s id n v g d e p, true)) ∧
    (∀ v : Int,
      (update_students s id n v g d e p).map (fun r => r.student_id) =
        s.map (fun r => r.student_id) ∧
      (update_students s id n v g d e p).map (fun r => r.status) =
        s.map (fun r => r.status) ∧
      (∀ (i : Nat) (r : Student), s[i]? = some r → r.student_id ≠ id →
        (update_students s id n v g d e p)[i]? = some r) ∧
      (∀ (i : Nat) (r : Student), s[i]? = some r → r.student_id = id →
        (update_students s id n v g d e p)[i]? =
          some { r with name := n, age := v, gender := g,
                        department := d, email := e, phone := p })) := by
  refine ⟨fun h => update_checked_of_invalid h, ?_, ?_⟩
  · intro h
    obtain ⟨v, hv, _, _, he⟩ := update_checked_of_valid (validate_fst_true h)
    exact ⟨v, hv, he⟩
  · intro v
    refine ⟨?_, ?_, ?_, ?_⟩
    · unfold update_students
      rw [List.map_map]
      apply List.map_congr_left
      intro r _
      by_cases hid : r.student_id = id <;> simp [Function.comp, hid]
    · unfold update_students
      rw [List.map_map]
      apply List.map_congr_left
      intro r _
      by_cases hid : r.student_id = id <;> simp [Function.comp, hid]
    · intro i r hi hne
      unfold update_students
      rw [List.getElem?_map, hi]
      simp [hne]
    · intro i r hi heq
      unfold update_students
      rw [List.getElem?_map, hi]
      simp [heq]

theorem C8_update_frame_witness :
    update_checked [sampleStudent] "S1001" "A" "30" "M" "CS" "a@b.co" "1234567890" =
      ([sampleStudent], false) ∧
    (update_students [sampleStudent] "S1001" "Ann" 30 "F" "CS" "a@b.co" "0987654321")[0]? =
      some { sampleStudent with
             name := "Ann", age := 30, gender := "F",
             department := "CS", email := "a@b.co", phone := "0987654321" } := by
  constructor
  · exact (C8_update_frame [sampleStudent] "S1001" "A" "30" "M" "CS" "a@b.co"
      "1234567890").1 (by decide)
  · exact ((C8_update_frame [sampleStudent] "S1001" "Ann" "30" "F" "CS" "a@b.co"
      "0987654321").2.2 30).2.2.2 0 sampleStudent (by decide) (by decide)

/-- C9: the admin login issues at most 3 password prompts; when the first
three attempts fail it returns failure after exactly 3 prompts, and the
admin branch of `main` then exits the process with code 1 (non-zero),
issuing no further prompts. -/
theorem C9_admin_login_three_failures (tries : Nat → Bool)
    (h0 : tries 0 = false) (h1 : tries 1 = false) (h2 : tries 2 = false) :
    admin_login tries = (false, 3) ∧ admin_branch_exit tries = some 1 ∧
    ∀ t : Nat → Bool, (admin_login t).2 ≤ 3 := by
  have hl : admin_login tries = (false, 3) := by
    simp [admin_login, login_go, h0, h1, h2]
  refine ⟨hl, ?_, ?_⟩
  · unfold admin_branch_exit
    rw [hl]
    simp
  · intro t
    have := login_go_prompts_le t 3 0
    simpa using this

theorem C9_admin_login_three_failures_witness :
    admin_login (fun _ => false) = (false, 3) ∧
    admin_branch_exit (fun _ => false) = some 1 := by
  have h := C9_admin_login_three_failures (fun _ => false) rfl rfl rfl
  exact ⟨h.1, h.2.1⟩

/-- C10: validation is total: for every 5-tuple of strings it returns one
of seven fixed (flag, message) pairs — in particular a non-numeric age is
caught and reported as a validation error rather than propagating. -/
theorem C10_validate_total (n a g e p : String) :
    (validate_student_data n a g e p = (true, "") ∨
     validate_student_data n a g e p = (false, "Name must be at least 2 characters.") ∨
     validate_student_data n a g e p = (false, "Age must be a valid number.") ∨
     validate_student_data n a g e p = (false, "Age must be between 10 and 100.") ∨
     validate_student_data n a g e p = (false, "Gender must be M, F, or Other.") ∨
     validate_student_data n a g e p = (false, "Invalid email format.") ∨
     validate_student_data n a g e p = (false, "Phone number must be 10-15 digits.")) ∧
    (¬ (n = "" ∨ n.length < 2) → pyIntOfString a = none →
      validate_student_data n a g e p = (false, "Age must be a valid number.")) := by
  constructor
  · exact validate_outcomes n a g e p
  · intro h1 h2
    unfold validate_student_data
    rw [if_neg h1, h2]

theorem C10_validate_total_witness :
    validate_student_data "Al" "twelve" "M" "a@b.co" "1234567890" =
      (false, "Age must be a valid number.") :=
  (C10_validate_total "Al" "twelve" "M" "a@b.co" "1234567890").2 (by decide) (by decide)
